import Mathlib

/-!
Verification of the differential-privacy chapter (`zh_cn/notebooks/ch3.ipynb`).

The notebook's computational core:
  - cell-5:  `adult[adult['Age'] >= 40].shape[0]`                (recorded output: 14237)
  - cell-7:  `adult[adult['Age'] >= 40].shape[0]
                + np.random.laplace(loc=0, scale=sensitivity/epsilon)`
             with `sensitivity = 1`, `epsilon = 0.1`
  - cell-11: `karries_row = adult[adult['Name'] == 'Karrie Trusslove']`
             `karries_row[karries_row['Target'] == '<=50K'].shape[0]`   (recorded output: 1)
  - cell-13: same two-stage filter count plus Laplace noise, sensitivity = 1, epsilon = 0.1

Embedding choices:
  - A pandas DataFrame row is a `Record` with the three columns the notebook uses
    (`Name`, `Age`, `Target`); a DataFrame is a `List Record`; boolean-mask
    selection `df[pred]` is `List.filter`; `.shape[0]` is `List.length`.
  - Python floats are idealized as rationals (every float is a rational), so the
    one-line mechanism is executable.  `np.random.laplace(loc, scale)` draws a
    standard Laplace variate `z` from the underlying uniform source and returns
    `loc + scale * z`; we pass `z` explicitly.  numpy raises `ValueError` when
    `scale < 0`, and Python raises `ZeroDivisionError` on `sensitivity/epsilon`
    when `epsilon = 0`; both are modelled in an `Except`.
  - The distributional facts (the density of the mechanism's output and the
    differential-privacy inequality) live at the real/measure level, with the
    Laplace density written out explicitly.
-/

/-- One row of the `adult_with_pii.csv` table, restricted to the three columns the
notebook reads: `Name`, `Age`, `Target`. -/
structure Record where
  name : String
  age : ℤ
  target : String
deriving DecidableEq, Repr

/-- The predicate `Age >= 40` of cell-5 and cell-7. -/
def ageAtLeast40 (r : Record) : Bool := 40 ≤ r.age

/-- The predicate `Name == 'Karrie Trusslove'` of cell-11 and cell-13. -/
def isKarrie (r : Record) : Bool := r.name = "Karrie Trusslove"

/-- The predicate `Target == '<=50K'` of cell-11 and cell-13. -/
def targetAtMost50K (r : Record) : Bool := r.target = "<=50K"

/-- `df[pred].shape[0]`: the number of records of a dataset satisfying a
predicate (the notebook's counting query, cells 5 and 11). -/
def count_matching (dataset : List Record) (predicate : Record → Bool) : ℕ :=
  (dataset.filter predicate).length

/-- The exceptions Python can raise while evaluating the mechanism line:
`ZeroDivisionError` from `sensitivity/epsilon` when `epsilon = 0`, and numpy's
`ValueError` (message `scale < 0`) from `np.random.laplace` on a negative scale. -/
inductive PyError where
  | zeroDivisionError : PyError
  | valueError : PyError
deriving DecidableEq, Repr

/-- Python division: raises `ZeroDivisionError` on a zero divisor. -/
def pyDiv (a b : ℚ) : Except PyError ℚ :=
  if b = 0 then Except.error PyError.zeroDivisionError else Except.ok (a / b)

/-- `np.random.laplace(loc, scale)`: numpy validates `scale < 0` with a
`ValueError`, then returns `loc + scale * z` where `z` is the standard Laplace
variate obtained from the uniform source (passed explicitly here). -/
def np_random_laplace (loc scale z : ℚ) : Except PyError ℚ :=
  if scale < 0 then Except.error PyError.valueError else Except.ok (loc + scale * z)

/-- Cell-7's mechanism line applied to an already-computed true value:
`true_value + np.random.laplace(loc=0, scale=sensitivity/epsilon)`.
`z` is the standard Laplace draw consumed from the random source. -/
def laplace_mechanism (true_value sensitivity epsilon z : ℚ) : Except PyError ℚ := do
  let scale ← pyDiv sensitivity epsilon
  let noise ← np_random_laplace 0 scale z
  pure (true_value + noise)

/-- Recorded output of cell-5, the true count of records with `Age >= 40` in the
census dataset (the CSV itself is external to the notebook; the executed cell
records the value). -/
def cell5_true_value : ℕ := 14237

/-- Recorded output of cell-11, the true count of the malicious single-person
query. -/
def cell11_true_value : ℕ := 1

/-- Neighboring datasets: two datasets differing in exactly one record (one
individual's row replaced by a different row, all other rows identical). -/
def Neighboring (x y : List Record) : Prop :=
  ∃ pre r r' post, r ≠ r' ∧ x = pre ++ r :: post ∧ y = pre ++ r' :: post

/-- C1: for finite `true_value`, `sensitivity > 0` and `epsilon > 0`, the
mechanism returns exactly `true_value + noise`, where `noise` is the single
sample drawn by `np.random.laplace` with location 0 and scale
`sensitivity/epsilon` (here `z` is the standard Laplace variate the sampler
derives from its uniform source, so the draw is `0 + sensitivity/epsilon * z`);
nothing else is added or applied. -/
theorem laplace_mechanism_adds_single_laplace_sample
    (true_value sensitivity epsilon z : ℚ)
    (hs : 0 < sensitivity) (he : 0 < epsilon) :
    ∃ noise : ℚ,
      np_random_laplace 0 (sensitivity / epsilon) z = Except.ok noise ∧
      laplace_mechanism true_value sensitivity epsilon z =
        Except.ok (true_value + noise) := by
  have hscale : ¬ sensitivity / epsilon < 0 := not_lt.mpr (le_of_lt (div_pos hs he))
  refine ⟨0 + sensitivity / epsilon * z, ?_, ?_⟩
  · simp [np_random_laplace, hscale]
  · simp [laplace_mechanism, pyDiv, np_random_laplace, he.ne', hscale, bind, Except.bind,
      Functor.map, Except.map, pure, Except.pure]

/-- Witness for C1 at `true_value = 5`, `sensitivity = 1`, `epsilon = 1/10`,
`z = 3`. -/
theorem laplace_mechanism_adds_single_laplace_sample_witness :
    (0 : ℚ) < 1 ∧ (0 : ℚ) < 1/10 ∧
    ∃ noise : ℚ,
      np_random_laplace 0 (1 / (1/10)) 3 = Except.ok noise ∧
      laplace_mechanism 5 1 (1/10) 3 = Except.ok (5 + noise) :=
  ⟨by norm_num, by norm_num,
    laplace_mechanism_adds_single_laplace_sample 5 1 (1/10) 3 (by norm_num) (by norm_num)⟩

/-- Counterexample to C4: with `epsilon = -1 ≤ 0` and `sensitivity = -1`, the
negative signs cancel in `scale = sensitivity/epsilon = 1`, and the code
silently returns a numeric result instead of failing. -/
theorem laplace_mechanism_nonpos_epsilon_can_return_ok :
    (-1 : ℚ) ≤ 0 ∧ laplace_mechanism 0 (-1) (-1) 1 = Except.ok 1 := by
  constructor
  · norm_num
  · norm_num [laplace_mechanism, pyDiv, np_random_laplace, bind, Except.bind,
      Functor.map, Except.map, pure, Except.pure]

/-- C4 amended: with `epsilon ≤ 0` and `sensitivity > 0` the mechanism never
returns a numeric result, but the failure is Python's `ZeroDivisionError` (when
`epsilon = 0`) or numpy's `ValueError` on the negative scale (when
`epsilon < 0`) — no `InvalidParameter` validation exists in the code. -/
theorem laplace_mechanism_nonpos_epsilon_pos_sensitivity_error
    (true_value sensitivity epsilon z : ℚ)
    (he : epsilon ≤ 0) (hs : 0 < sensitivity) :
    laplace_mechanism true_value sensitivity epsilon z =
      Except.error
        (if epsilon = 0 then PyError.zeroDivisionError else PyError.valueError) := by
  rcases eq_or_lt_of_le he with h0 | hneg
  · simp [laplace_mechanism, pyDiv, h0.symm, bind, Except.bind]
  · have hd : sensitivity / epsilon < 0 := div_neg_of_pos_of_neg hs hneg
    simp [laplace_mechanism, pyDiv, np_random_laplace, hneg.ne, hd, bind, Except.bind,
      Functor.map, Except.map]

/-- Witness for the amended C4 at `epsilon = -2`, `sensitivity = 1`. -/
theorem laplace_mechanism_nonpos_epsilon_pos_sensitivity_error_witness :
    (-2 : ℚ) ≤ 0 ∧ (0 : ℚ) < 1 ∧
    laplace_mechanism 0 1 (-2) 0 =
      Except.error
        (if (-2 : ℚ) = 0 then PyError.zeroDivisionError else PyError.valueError) :=
  ⟨by norm_num, by norm_num,
    laplace_mechanism_nonpos_epsilon_pos_sensitivity_error 0 1 (-2) 0
      (by norm_num) (by norm_num)⟩

/-- Counterexample to C5: with `sensitivity = -2 < 0` and `epsilon = -1`, the
scale `sensitivity/epsilon = 2` is positive and the code silently returns a
numeric result; C5's "any epsilon" fails. -/
theorem laplace_mechanism_neg_sensitivity_neg_epsilon_ok :
    (-2 : ℚ) < 0 ∧ laplace_mechanism 7 (-2) (-1) 1 = Except.ok 9 := by
  constructor
  · norm_num
  · norm_num [laplace_mechanism, pyDiv, np_random_laplace, bind, Except.bind,
      Functor.map, Except.map, pure, Except.pure]

/-- C5 amended: with `sensitivity < 0` and `epsilon > 0` the mechanism does
fail rather than produce negative-scale noise, but with numpy's `ValueError`
(message `scale < 0`), not an `InvalidParameter` error; with `epsilon < 0` the
signs cancel and a numeric result is silently produced. -/
theorem laplace_mechanism_neg_sensitivity_pos_epsilon_error
    (true_value sensitivity epsilon z : ℚ)
    (hs : sensitivity < 0) (he : 0 < epsilon) :
    laplace_mechanism true_value sensitivity epsilon z =
      Except.error PyError.valueError := by
  have hd : sensitivity / epsilon < 0 := div_neg_of_neg_of_pos hs he
  simp [laplace_mechanism, pyDiv, np_random_laplace, he.ne', hd, bind, Except.bind,
    Functor.map, Except.map]

/-- Witness for the amended C5 at `sensitivity = -3`, `epsilon = 2`. -/
theorem laplace_mechanism_neg_sensitivity_pos_epsilon_error_witness :
    (-3 : ℚ) < 0 ∧ (0 : ℚ) < 2 ∧
    laplace_mechanism 1 (-3) 2 5 = Except.error PyError.valueError :=
  ⟨by norm_num, by norm_num,
    laplace_mechanism_neg_sensitivity_pos_epsilon_error 1 (-3) 2 5
      (by norm_num) (by norm_num)⟩

/-- C6: with `sensitivity = 0` and any `epsilon > 0` the scale is `0`, numpy
accepts it, and the output equals `true_value` exactly on every call — no noise
is added. -/
theorem laplace_mechanism_zero_sensitivity_identity
    (true_value epsilon z : ℚ) (he : 0 < epsilon) :
    laplace_mechanism true_value 0 epsilon z = Except.ok true_value := by
  simp [laplace_mechanism, pyDiv, np_random_laplace, he.ne', bind, Except.bind,
    Functor.map, Except.map, pure, Except.pure]

/-- Witness for C6 at `true_value = 42`, `epsilon = 1/10`, `z = 99`. -/
theorem laplace_mechanism_zero_sensitivity_identity_witness :
    (0 : ℚ) < 1/10 ∧ laplace_mechanism 42 0 (1/10) 99 = Except.ok 42 :=
  ⟨by norm_num, laplace_mechanism_zero_sensitivity_identity 42 (1/10) 99 (by norm_num)⟩

/-- Counterexample to C7: the recorded output of cell-5 — the true count of
records with `Age >= 40` — is 14237, not the 14235 the narrative (and the spec)
quote. -/
theorem cell5_true_value_ne_14235 : cell5_true_value ≠ 14235 := by decide

/-- C7 amended: the true value of the example counting query, as recorded by
the executed cell-5, is 14237 (the notebook's narrative misquotes it as
14,235), and the mechanism applied to it with `sensitivity = 1` and
`epsilon = 0.1` returns a number (`scale = 10`). -/
theorem cell5_mechanism_returns_number (z : ℚ) :
    cell5_true_value = 14237 ∧
    laplace_mechanism (cell5_true_value : ℚ) 1 (1/10) z =
      Except.ok (14237 + 10 * z) := by
  refine ⟨rfl, ?_⟩
  have h1 : ((1 : ℚ)/10) ≠ 0 := by norm_num
  have h2 : ¬ ((1 : ℚ) / (1/10)) < 0 := by norm_num
  simp [laplace_mechanism, pyDiv, np_random_laplace, h1, h2, bind, Except.bind,
    Functor.map, Except.map, pure, Except.pure, cell5_true_value]
  norm_num

/-- C3: the sensitivity of the predicate-based counting query is exactly 1:
for every predicate and every pair of neighboring datasets the count changes by
at most 1, and the constant 1 is attained (so it is the least uniform bound,
matching the fixed constant the notebook uses). -/
theorem count_matching_sensitivity_exactly_one :
    (∀ (p : Record → Bool) (x y : List Record), Neighboring x y →
       |(count_matching x p : ℤ) - count_matching y p| ≤ 1) ∧
    (∃ (p : Record → Bool) (x y : List Record), Neighboring x y ∧
       |(count_matching x p : ℤ) - count_matching y p| = 1) := by
  constructor
  · rintro p x y ⟨pre, r, r', post, hne, rfl, rfl⟩
    simp only [count_matching, List.filter_append, List.length_append, List.filter_cons]
    rw [abs_le]
    cases hr : p r <;> cases hr' : p r' <;> simp
  · refine ⟨ageAtLeast40, [⟨"A", 40, "x"⟩], [⟨"A", 39, "x"⟩], ?_, by decide⟩
    exact ⟨[], ⟨"A", 40, "x"⟩, ⟨"A", 39, "x"⟩, [], by decide, rfl, rfl⟩

/-- Witness for C3: the bound applied to the concrete neighboring pair
`[⟨"A", 40, "x"⟩]` / `[⟨"A", 39, "x"⟩]` with the `Age >= 40` predicate. -/
theorem count_matching_sensitivity_exactly_one_witness :
    Neighboring [⟨"A", 40, "x"⟩] [⟨"A", 39, "x"⟩] ∧
    |(count_matching [⟨"A", 40, "x"⟩] ageAtLeast40 : ℤ) -
       count_matching [⟨"A", 39, "x"⟩] ageAtLeast40| ≤ 1 := by
  have hn : Neighboring [⟨"A", 40, "x"⟩] [⟨"A", 39, "x"⟩] :=
    ⟨[], ⟨"A", 40, "x"⟩, ⟨"A", 39, "x"⟩, [], by decide, rfl, rfl⟩
  exact ⟨hn, count_matching_sensitivity_exactly_one.1 ageAtLeast40 _ _ hn⟩

/-- C9: `count_matching` is a natural number (hence non-negative) bounded by
the dataset's size; on a dataset restricted to a single individual's rows
(at most one record matches the name, as in the malicious cell-11 query) every
further count is 0 or 1. -/
theorem count_matching_bounds :
    (∀ (ds : List Record) (p : Record → Bool), count_matching ds p ≤ ds.length) ∧
    (∀ (ds : List Record) (q : Record → Bool),
       count_matching ds isKarrie ≤ 1 →
       count_matching (ds.filter isKarrie) q = 0 ∨
       count_matching (ds.filter isKarrie) q = 1) := by
  constructor
  · intro ds p
    exact List.length_filter_le p ds
  · intro ds q h
    have h2 : count_matching (ds.filter isKarrie) q ≤ (ds.filter isKarrie).length :=
      List.length_filter_le q (ds.filter isKarrie)
    have h3 : (ds.filter isKarrie).length = count_matching ds isKarrie := rfl
    omega

/-- Witness for C9 on a concrete two-record dataset containing one row for
Karrie Trusslove. -/
theorem count_matching_bounds_witness :
    count_matching [⟨"Karrie Trusslove", 39, "<=50K"⟩, ⟨"B", 50, ">50K"⟩] isKarrie ≤ 1 ∧
    (count_matching
        ([⟨"Karrie Trusslove", 39, "<=50K"⟩, ⟨"B", 50, ">50K"⟩].filter isKarrie)
        targetAtMost50K = 0 ∨
     count_matching
        ([⟨"Karrie Trusslove", 39, "<=50K"⟩, ⟨"B", 50, ">50K"⟩].filter isKarrie)
        targetAtMost50K = 1) := by
  have h : count_matching [⟨"Karrie Trusslove", 39, "<=50K"⟩, ⟨"B", 50, ">50K"⟩] isKarrie ≤ 1 := by
    decide
  exact ⟨h, count_matching_bounds.2 _ targetAtMost50K h⟩

/-- C10: filtering by a second predicate and counting never exceeds the count
for the first predicate alone (cell-11's two-stage `Name` then `Target`
filter). -/
theorem count_matching_two_stage_le (ds : List Record) (p q : Record → Bool) :
    count_matching (ds.filter p) q ≤ count_matching ds p :=
  List.length_filter_le q (ds.filter p)

/-- The notebook's program state: the `adult` table loaded once by cell-3, and
the process-wide numpy random source, modelled as a stream of standard Laplace
draws `rng` together with a cursor `rngIndex` marking how much entropy has been
consumed. -/
structure ProgState where
  adult : List Record
  rng : ℕ → ℚ
  rngIndex : ℕ

/-- Running a counting query (cells 5 and 11) against the program state: it
returns the count and touches nothing. -/
def run_counting_query (p : Record → Bool) (st : ProgState) : ℕ × ProgState :=
  (count_matching st.adult p, st)

/-- Running the mechanism line (cells 7 and 13) against the program state: it
consumes exactly one draw from the random source and leaves the dataset
untouched. -/
def run_laplace_mechanism (true_value sensitivity epsilon : ℚ) (st : ProgState) :
    Except PyError ℚ × ProgState :=
  (laplace_mechanism true_value sensitivity epsilon (st.rng st.rngIndex),
   { st with rngIndex := st.rngIndex + 1 })

/-- C8: the counting query leaves the whole program state unchanged; the
mechanism leaves the dataset and the random stream unchanged and consumes
exactly one draw of entropy; and both results are stateless — they depend only
on the inputs (and, for the mechanism, the one consumed draw), not on any other
program state. -/
theorem queries_side_effect_free (p : Record → Bool) (tv s ε : ℚ) (st st' : ProgState) :
    (run_counting_query p st).2 = st ∧
    (run_laplace_mechanism tv s ε st).2.adult = st.adult ∧
    (run_laplace_mechanism tv s ε st).2.rng = st.rng ∧
    (run_laplace_mechanism tv s ε st).2.rngIndex = st.rngIndex + 1 ∧
    (st.adult = st'.adult →
      (run_counting_query p st).1 = (run_counting_query p st').1) ∧
    (st.rng st.rngIndex = st'.rng st'.rngIndex →
      (run_laplace_mechanism tv s ε st).1 = (run_laplace_mechanism tv s ε st').1) := by
  refine ⟨rfl, rfl, rfl, rfl, ?_, ?_⟩
  · intro h
    simp [run_counting_query, h]
  · intro h
    simp [run_laplace_mechanism, h]

/-- Witness for C8 on a concrete state: one record, the zero random stream,
cursor at 0. -/
theorem queries_side_effect_free_witness :
    (run_counting_query ageAtLeast40 ⟨[⟨"A", 41, "x"⟩], fun _ => 0, 0⟩).2 =
        ⟨[⟨"A", 41, "x"⟩], fun _ => 0, 0⟩ ∧
    (run_laplace_mechanism 1 1 1 ⟨[⟨"A", 41, "x"⟩], fun _ => 0, 0⟩).2.rngIndex = 0 + 1 ∧
    (run_counting_query ageAtLeast40 ⟨[⟨"A", 41, "x"⟩], fun _ => 0, 0⟩).1 =
      (run_counting_query ageAtLeast40 ⟨[⟨"A", 41, "x"⟩], fun _ => 0, 0⟩).1 := by
  have h := queries_side_effect_free ageAtLeast40 1 1 1
    ⟨[⟨"A", 41, "x"⟩], fun _ => 0, 0⟩ ⟨[⟨"A", 41, "x"⟩], fun _ => 0, 0⟩
  exact ⟨h.1, h.2.2.2.1, h.2.2.2.2.1 rfl⟩

/-- Shared sensitivity bound: for every predicate, the counting query changes
by at most 1 between neighboring datasets. -/
theorem count_matching_neighboring_diff_le (p : Record → Bool) (x y : List Record)
    (h : Neighboring x y) :
    |(count_matching x p : ℤ) - count_matching y p| ≤ 1 := by
  obtain ⟨pre, r, r', post, hne, rfl, rfl⟩ := h
  simp only [count_matching, List.filter_append, List.length_append, List.filter_cons]
  rw [abs_le]
  cases hr : p r <;> cases hr' : p r' <;> simp

open MeasureTheory in
/-- The Laplace density with location 0 and scale `b`, the distribution
`np.random.laplace(loc=0, scale=b)` samples from. -/
noncomputable def laplacePDF (b x : ℝ) : ℝ := (2 * b)⁻¹ * Real.exp (-|x| / b)

open MeasureTheory in
/-- The law of one draw of `np.random.laplace(loc=0, scale=b)`: the measure on
`ℝ` with density `laplacePDF b` with respect to Lebesgue measure. -/
noncomputable def laplaceMeasure (b : ℝ) : Measure ℝ :=
  volume.withDensity fun x => ENNReal.ofReal (laplacePDF b x)

open MeasureTheory in
/-- The law of the mechanism's output `true_value + noise` with
`noise ~ Laplace(0, b)`: the pushforward of `laplaceMeasure b` under the
translation cell-7 performs. -/
noncomputable def mechanismDist (true_value b : ℝ) : Measure ℝ :=
  (laplaceMeasure b).map fun noise => true_value + noise

open MeasureTheory in
/-- Change of variables: the output law is the Laplace density re-centered at
`true_value`. -/
theorem mechanismDist_eq_shifted (true_value b : ℝ) :
    mechanismDist true_value b =
      volume.withDensity fun y => ENNReal.ofReal (laplacePDF b (y - true_value)) := by
  ext S hS
  have hpre : MeasurableSet (Set.preimage (fun x => true_value + x) S) :=
    hS.preimage (measurable_const_add true_value)
  rw [mechanismDist, Measure.map_apply (measurable_const_add true_value) hS,
    laplaceMeasure, withDensity_apply _ hpre, withDensity_apply _ hS,
    ← lintegral_indicator hpre, ← lintegral_indicator hS]
  rw [← lintegral_add_left_eq_self
    (fun y => S.indicator (fun y => ENNReal.ofReal (laplacePDF b (y - true_value))) y)
    true_value]
  congr 1
  funext x
  by_cases hx : true_value + x ∈ S
  · have hx' : x ∈ Set.preimage (fun x => true_value + x) S := hx
    simp [Set.indicator_of_mem hx, Set.indicator_of_mem hx']
  · have hx' : x ∉ Set.preimage (fun x => true_value + x) S := hx
    simp [Set.indicator_of_not_mem hx, Set.indicator_of_not_mem hx']

/-- Pointwise bound between two Laplace densities whose centers differ by at
most the sensitivity: the heart of the epsilon-differential-privacy proof. -/
theorem laplacePDF_ratio_le (s ε y c c' : ℝ) (hs : 0 < s) (hε : 0 < ε)
    (h : |c - c'| ≤ s) :
    laplacePDF (s / ε) (y - c) ≤ Real.exp ε * laplacePDF (s / ε) (y - c') := by
  set b := s / ε with hbdef
  have hb : 0 < b := div_pos hs hε
  have hsb : s / b = ε := by
    rw [hbdef]
    field_simp
  have habs : |y - c'| - |y - c| ≤ s := by
    have h1 : |y - c'| - |y - c| ≤ |(y - c') - (y - c)| := abs_sub_abs_le_abs_sub _ _
    have h2 : (y - c') - (y - c) = c - c' := by ring
    calc |y - c'| - |y - c| ≤ |(y - c') - (y - c)| := h1
      _ = |c - c'| := by rw [h2]
      _ ≤ s := h
  have hdiv : (|y - c'| - |y - c|) / b ≤ ε := by
    calc (|y - c'| - |y - c|) / b ≤ s / b := div_le_div_of_nonneg_right habs hb.le
      _ = ε := hsb
  have hexp : Real.exp (-|y - c| / b) ≤ Real.exp ε * Real.exp (-|y - c'| / b) := by
    rw [← Real.exp_add]
    apply Real.exp_le_exp.mpr
    have hsplit : -|y - c| / b = (|y - c'| - |y - c|) / b + (-|y - c'| / b) := by
      ring
    rw [hsplit]
    linarith
  have hpos : (0:ℝ) ≤ (2 * b)⁻¹ := by positivity
  calc laplacePDF b (y - c) = (2 * b)⁻¹ * Real.exp (-|y - c| / b) := rfl
    _ ≤ (2 * b)⁻¹ * (Real.exp ε * Real.exp (-|y - c'| / b)) :=
        mul_le_mul_of_nonneg_left hexp hpos
    _ = Real.exp ε * laplacePDF b (y - c') := by
        rw [laplacePDF]
        ring

open MeasureTheory in
/-- Event-level bound between the output laws at two true values whose
difference is at most the sensitivity. -/
theorem mechanismDist_le_exp_mul (fx fy s ε : ℝ) (hs : 0 < s) (hε : 0 < ε)
    (hsens : |fx - fy| ≤ s) (S : Set ℝ) (hS : MeasurableSet S) :
    mechanismDist fx (s / ε) S ≤
      ENNReal.ofReal (Real.exp ε) * mechanismDist fy (s / ε) S := by
  rw [mechanismDist_eq_shifted, mechanismDist_eq_shifted,
    withDensity_apply _ hS, withDensity_apply _ hS]
  calc ∫⁻ u in S, ENNReal.ofReal (laplacePDF (s / ε) (u - fx)) ∂volume
      ≤ ∫⁻ u in S,
          ENNReal.ofReal (Real.exp ε) * ENNReal.ofReal (laplacePDF (s / ε) (u - fy)) ∂volume := by
        apply lintegral_mono
        intro u
        simp only
        rw [← ENNReal.ofReal_mul (Real.exp_nonneg ε)]
        exact ENNReal.ofReal_le_ofReal (laplacePDF_ratio_le s ε u fx fy hs hε hsens)
    _ = ENNReal.ofReal (Real.exp ε) *
          ∫⁻ u in S, ENNReal.ofReal (laplacePDF (s / ε) (u - fy)) ∂volume :=
        lintegral_const_mul' _ _ ENNReal.ofReal_ne_top

open MeasureTheory in
/-- C2: when the sensitivity bounds the query's change across neighboring
datasets and `epsilon > 0`, (1) the mechanism's output law is the Laplace
distribution centered at the true value with scale `sensitivity/epsilon`
(density `laplacePDF (s/ε) (y - true_value)`), and (2) for every pair of
neighboring datasets and every measurable output event `S`,
`Pr[F(x) ∈ S] ≤ e^ε · Pr[F(x') ∈ S]` — the epsilon-differential-privacy
guarantee. -/
theorem laplace_mechanism_eps_differential_privacy
    (f : List Record → ℝ) (sensitivity epsilon : ℝ)
    (hs : 0 < sensitivity) (hε : 0 < epsilon)
    (hsens : ∀ x y, Neighboring x y → |f x - f y| ≤ sensitivity) :
    (∀ true_value : ℝ,
      mechanismDist true_value (sensitivity / epsilon) =
        volume.withDensity fun y =>
          ENNReal.ofReal (laplacePDF (sensitivity / epsilon) (y - true_value))) ∧
    (∀ x y, Neighboring x y → ∀ S : Set ℝ, MeasurableSet S →
      mechanismDist (f x) (sensitivity / epsilon) S ≤
        ENNReal.ofReal (Real.exp epsilon) *
          mechanismDist (f y) (sensitivity / epsilon) S) := by
  refine ⟨fun tv => mechanismDist_eq_shifted tv _, fun x y hn S hS => ?_⟩
  exact mechanismDist_le_exp_mul (f x) (f y) _ _ hs hε (hsens x y hn) S hS

open MeasureTheory in
/-- Witness for C2: the DP bound instantiated with the `Age >= 40` counting
query, `sensitivity = 1`, `epsilon = 1`, the concrete neighboring pair
`[⟨"A", 40, "x"⟩]` / `[⟨"A", 39, "x"⟩]`, and the event `S = Set.univ`. -/
theorem laplace_mechanism_eps_differential_privacy_witness :
    mechanismDist ((count_matching [⟨"A", 40, "x"⟩] ageAtLeast40 : ℕ) : ℝ) (1 / 1)
        Set.univ ≤
      ENNReal.ofReal (Real.exp 1) *
        mechanismDist ((count_matching [⟨"A", 39, "x"⟩] ageAtLeast40 : ℕ) : ℝ) (1 / 1)
          Set.univ := by
  have hn : Neighboring [⟨"A", 40, "x"⟩] [⟨"A", 39, "x"⟩] :=
    ⟨[], ⟨"A", 40, "x"⟩, ⟨"A", 39, "x"⟩, [], by decide, rfl, rfl⟩
  have hsens : ∀ x y, Neighboring x y →
      |((count_matching x ageAtLeast40 : ℕ) : ℝ) - ((count_matching y ageAtLeast40 : ℕ) : ℝ)| ≤ 1 := by
    intro x y h
    have hz := count_matching_neighboring_diff_le ageAtLeast40 x y h
    exact_mod_cast hz
  exact (laplace_mechanism_eps_differential_privacy
      (fun ds => ((count_matching ds ageAtLeast40 : ℕ) : ℝ)) 1 1 one_pos one_pos hsens).2
      _ _ hn Set.univ MeasurableSet.univ
